import Mathlib

/-!
Verification development for the donation-matching backend
(src/api/index.js of projeto-fan).

The document database is embedded as association lists from document id
to document data.  JavaScript field values occurring in request bodies
and stored documents are embedded by `JValue`, with JavaScript
truthiness.  Each Express route handler relevant to the claims is
translated into a pure Lean function from the database state (plus the
request inputs and the outcomes of external calls such as the Cloudinary
upload) to the new database state and a classified response.
-/

namespace ProjetoFan

/-- A JavaScript value as it occurs in request bodies and stored
documents.  `undef` stands for an absent field. -/
inductive JValue where
  | undef
  | null
  | bool (b : Bool)
  | num (n : Int)
  | str (s : String)
deriving DecidableEq

/-- JavaScript truthiness of a `JValue`: `undefined`, `null`, `false`,
`0` and the empty string are falsy. -/
def JValue.truthy : JValue → Bool
  | .undef => false
  | .null => false
  | .bool b => b
  | .num n => n != 0
  | .str s => s != ""

/-- Truthiness of an optional string input (an absent body or query
field is falsy, as is the empty string). -/
def truthyS : Option String → Bool
  | none => false
  | some s => s != ""

/-- A document of the `users` collection, restricted to the fields the
routes under verification read or write. -/
structure UserDoc where
  cargo : JValue
  nome : JValue
  telefone : JValue
  email : JValue
  password_hash : JValue
deriving DecidableEq

/-- A document of the `doacoes` collection. -/
structure Doacao where
  usuario_id : String
  titulo : JValue
  descricao : JValue
  categoria : JValue
  localizacao : JValue
  cidade : JValue
  estado : JValue
  foto : JValue
  createdAt : Nat
  updatedAt : Option Nat
deriving DecidableEq

/-- A document of the `solicitacoes` collection. -/
structure Solicitacao where
  doacao_id : String
  receptor_id : String
  motivo : String
  status : String
  createdAt : Nat
deriving DecidableEq

/-- The database state: the three collections touched by the routes. -/
structure DB where
  users : List (String × UserDoc)
  doacoes : List (String × Doacao)
  solicitacoes : List (String × Solicitacao)
deriving DecidableEq

/-- Embedding of `collection.doc(id).get()`: the first document with the given id. -/
def getDoc {α : Type} (col : List (String × α)) (id : String) : Option α :=
  (col.find? (fun p => p.1 == id)).map Prod.snd

/-- Embedding of `collection.doc(id).update(...)`: replace the data of the document
with the given id. -/
def updateDoc {α : Type} (col : List (String × α)) (id : String) (f : α → α) :
    List (String × α) :=
  col.map (fun p => if p.1 == id then (p.1, f p.2) else p)

/-- Classified failure of a route, following the error taxonomy of the
specification. -/
inductive ApiError where
  | validation
  | notFound
  | authorization
  | storage
  | internal
deriving DecidableEq

/-- Outcome of a route: a payload or a classified failure. -/
inductive Res (α : Type) where
  | ok (a : α)
  | fail (e : ApiError)
deriving DecidableEq

/-- Merge of one field by `DocumentStore.update`: an absent field of the
update set leaves the stored field, a present one (even `null`)
overwrites it. -/
def mergeField (old incoming : JValue) : JValue :=
  if incoming == .undef then old else incoming

/-- The relevant fields of the request body of `PUT /usuarios/:id`. -/
structure DadosPerfil where
  senha : Option String
  cargo : JValue
  nome : JValue
  telefone : JValue
  email : JValue
deriving DecidableEq

/-- Route `PUT /usuarios/:id`: load the user, 404 when absent; hash a truthy
incoming password; drop the incoming `cargo` field only when it is
truthy; merge the remaining update set into the stored document.  The
authenticated caller identity is available to the handler but never
consulted. -/
def atualizarPerfil (db : DB) (_callerId : String) (userId : String)
    (dados : DadosPerfil) (hash : String → String) : DB × Res Unit :=
  match getDoc db.users userId with
  | none => (db, .fail .notFound)
  | some u =>
    let passOut : JValue :=
      if truthyS dados.senha then .str (hash (dados.senha.getD "")) else .undef
    let cargoOut : JValue := if dados.cargo.truthy then .undef else dados.cargo
    let u2 : UserDoc :=
      { cargo := mergeField u.cargo cargoOut
        nome := mergeField u.nome dados.nome
        telefone := mergeField u.telefone dados.telefone
        email := mergeField u.email dados.email
        password_hash := mergeField u.password_hash passOut }
    ({ db with users := updateDoc db.users userId (fun _ => u2) }, .ok ())

/-- Observable external events of a route: one Cloudinary upload, one
document write on the `doacoes` collection. -/
inductive Ev where
  | upload
  | write
deriving DecidableEq

/-- Route `POST /doacoes`: validate the six required body fields by
truthiness; when a file is attached, upload its buffer first (a failed
upload is caught and surfaced as a storage failure, with no document
write); then add one new `doacoes` document.  `uploadFn` gives the
outcome of the external upload of a buffer (`none` = rejected). -/
def postDoacao (db : DB) (userId : String)
    (titulo descricao categoria localizacao cidade estado : Option String)
    (file : Option Nat) (uploadFn : Nat → Option String)
    (newId : String) (now : Nat) : DB × Res Unit × List Ev :=
  if !(truthyS titulo && truthyS descricao && truthyS categoria &&
       truthyS localizacao && truthyS cidade && truthyS estado) then
    (db, .fail .validation, [])
  else
    let mkDoc (fotoUrl : JValue) : Doacao :=
      { usuario_id := userId
        titulo := .str (titulo.getD "")
        descricao := .str (descricao.getD "")
        categoria := .str (categoria.getD "")
        localizacao := .str (localizacao.getD "")
        cidade := .str (cidade.getD "")
        estado := .str (estado.getD "")
        foto := fotoUrl
        createdAt := now
        updatedAt := none }
    match file with
    | none =>
      ({ db with doacoes := db.doacoes ++ [(newId, mkDoc .null)] }, .ok (), [.write])
    | some buf =>
      match uploadFn buf with
      | none => (db, .fail .storage, [.upload])
      | some url =>
        ({ db with doacoes := db.doacoes ++ [(newId, mkDoc (.str url))] },
         .ok (), [.upload, .write])

/-- The city/state fallback of `PUT /doacoes/:id`: a defined non-null
incoming value wins; otherwise the stored value when truthy, else
`null` (`doacao.cidade || null`). -/
def novoCampoCidade (incoming stored : JValue) : JValue :=
  if incoming != .undef && incoming != .null then incoming
  else if stored.truthy then stored else .null

/-- Route `PUT /doacoes/:id`: 404 when the donation is absent, 403 when the
caller does not own it; city and state always written through the
fallback above; title, description, category and location written only
when defined; the photo URL replaced only when a new file is attached
(an upload failure is caught before any document write). -/
def atualizarDoacao (db : DB) (callerId doacaoId : String)
    (titulo descricao categoria localizacao cidade estado : JValue)
    (file : Option Nat) (uploadFn : Nat → Option String) (now : Nat) :
    DB × Res Unit :=
  match getDoc db.doacoes doacaoId with
  | none => (db, .fail .notFound)
  | some doacao =>
    if doacao.usuario_id != callerId then (db, .fail .authorization)
    else
      let fotoRes : Option JValue :=
        match file with
        | none => some doacao.foto
        | some buf => (uploadFn buf).map JValue.str
      match fotoRes with
      | none => (db, .fail .storage)
      | some fotoUrl =>
        let d2 : Doacao :=
          { usuario_id := doacao.usuario_id
            titulo := mergeField doacao.titulo titulo
            descricao := mergeField doacao.descricao descricao
            categoria := mergeField doacao.categoria categoria
            localizacao := mergeField doacao.localizacao localizacao
            cidade := novoCampoCidade cidade doacao.cidade
            estado := novoCampoCidade estado doacao.estado
            foto := fotoUrl
            createdAt := doacao.createdAt
            updatedAt := some now }
        ({ db with doacoes := updateDoc db.doacoes doacaoId (fun _ => d2) }, .ok ())

/-- Route `POST /solicitacoes`: 400 when `doacao_id` or `motivo` is falsy,
404 when the referenced donation is absent, else add one new request
document with status `pendente` and the current time. -/
def postSolicitacao (db : DB) (userId : String)
    (doacao_id motivo : Option String) (newId : String) (now : Nat) :
    DB × Res Unit :=
  if !(truthyS doacao_id && truthyS motivo) then (db, .fail .validation)
  else
    let did := doacao_id.getD ""
    match getDoc db.doacoes did with
    | none => (db, .fail .notFound)
    | some _ =>
      let s : Solicitacao :=
        { doacao_id := did
          receptor_id := userId
          motivo := motivo.getD ""
          status := "pendente"
          createdAt := now }
      ({ db with solicitacoes := db.solicitacoes ++ [(newId, s)] }, .ok ())

/-- Ordered insertion used to embed comparator-based sorting (`bef y x`
means `y` stays in front of `x`). -/
def insOrd {α : Type} (bef : α → α → Bool) (x : α) : List α → List α
  | [] => [x]
  | y :: ys => if bef y x then y :: insOrd bef x ys else x :: y :: ys

/-- Comparator-based sort of a document list. -/
def sortOrd {α : Type} (bef : α → α → Bool) : List α → List α
  | [] => []
  | x :: xs => insOrd bef x (sortOrd bef xs)

/-- One `where(field, ==, value)` clause of `GET /doacoes/filtrar`: the
clause is attached only when the query parameter is truthy. -/
def aplicaWhere (q : List (String × Doacao)) (crit : Option String)
    (campo : Doacao → JValue) : List (String × Doacao) :=
  match crit with
  | none => q
  | some c => if c = "" then q else q.filter (fun p => campo p.2 == JValue.str c)

/-- Route `GET /doacoes/filtrar`: conjunctive equality filters on category,
city and state (each attached only when its query parameter is truthy),
self-exclusion of the caller, then optional sorting by creation time. -/
def filtrarDoacoes (db : DB) (userId : String)
    (categoria cidade estado ordenar : Option String) :
    List (String × Doacao) :=
  let q := aplicaWhere (aplicaWhere (aplicaWhere db.doacoes categoria
    Doacao.categoria) cidade Doacao.cidade) estado Doacao.estado
  let doacoes := q.filter (fun p => p.2.usuario_id != userId)
  if ordenar == some "recente" then
    sortOrd (fun a b => decide (b.2.createdAt ≤ a.2.createdAt)) doacoes
  else if ordenar == some "antiga" then
    sortOrd (fun a b => decide (a.2.createdAt ≤ b.2.createdAt)) doacoes
  else doacoes

/-- One entry of the answer of `GET /solicitacoes/recebidas`: the
request document joined with the referenced donation snapshot and the
requester profile snapshot (each `none` when the referenced document is
missing). -/
structure Enriquecida where
  id : String
  data : Solicitacao
  doacao : Option Doacao
  receptor : Option UserDoc
deriving DecidableEq

/-- Enrichment of one request document by the two per-item reads. -/
def enriquece (db : DB) (p : String × Solicitacao) : Enriquecida :=
  { id := p.1
    data := p.2
    doacao := getDoc db.doacoes p.2.doacao_id
    receptor := getDoc db.users p.2.receptor_id }

/-- Step one of `GET /solicitacoes/recebidas`: the ids of the donations
owned by the donor. -/
def ownedIds (db : DB) (doadorId : String) : List String :=
  (db.doacoes.filter (fun p => p.2.usuario_id == doadorId)).map Prod.fst

/-- Route `GET /solicitacoes/recebidas`: resolve the donor-owned donation
ids; when there are none, answer the empty list at once; otherwise
query the requests whose donation id is among them, newest first, and
enrich each.  The second component logs the collection of every store
read, in order. -/
def solicitacoesRecebidas (db : DB) (doadorId : String) :
    List Enriquecida × List String :=
  let ids := ownedIds db doadorId
  if ids.isEmpty then ([], ["doacoes"])
  else
    let solicDocs := sortOrd (fun a b => decide (b.2.createdAt ≤ a.2.createdAt))
      (db.solicitacoes.filter (fun p => ids.contains p.2.doacao_id))
    (solicDocs.map (enriquece db),
     "doacoes" :: "solicitacoes" ::
       (solicDocs.map (fun _ => ["doacoes", "users"])).flatten)

/-- The contact snapshot answered by the accept/decline routes. -/
structure ContatoReceptor where
  nome : JValue
  telefone : JValue
  email : JValue
deriving DecidableEq

/-- The database after the unconditional status write of a decide
route. -/
def comStatus (db : DB) (solicId novoStatus : String) : DB :=
  { db with solicitacoes :=
      updateDoc db.solicitacoes solicId (fun s => { s with status := novoStatus }) }

/-- Common body of `PUT /solicitacoes/:id/aceitar` and `.../recusar`:
load the request, 404 when absent; overwrite its status
unconditionally; then read the requester user document and answer its
contact fields.  A missing requester document makes that last read
throw, caught as a 500 after the status write already happened.  The
authenticated caller identity is available to the handler but never
consulted. -/
def decidirSolicitacao (db : DB) (_callerId solicId : String)
    (novoStatus : String) : DB × Res ContatoReceptor :=
  match getDoc db.solicitacoes solicId with
  | none => (db, .fail .notFound)
  | some dataSolic =>
    let db2 : DB := comStatus db solicId novoStatus
    match getDoc db.users dataSolic.receptor_id with
    | none => (db2, .fail .internal)
    | some receptor =>
      (db2, .ok { nome := receptor.nome
                  telefone := receptor.telefone
                  email := receptor.email })

/-- Route `PUT /solicitacoes/:id/aceitar`. -/
def aceitarSolicitacao (db : DB) (callerId solicId : String) :
    DB × Res ContatoReceptor :=
  decidirSolicitacao db callerId solicId "aceita"

/-- Route `PUT /solicitacoes/:id/recusar`. -/
def recusarSolicitacao (db : DB) (callerId solicId : String) :
    DB × Res ContatoReceptor :=
  decidirSolicitacao db callerId solicId "recusada"

/-! ### Store lemmas -/

theorem getDoc_cons {α : Type} (x : String × α) (xs : List (String × α)) (id : String) :
    getDoc (x :: xs) id = if x.1 == id then some x.2 else getDoc xs id := by
  cases h : x.1 == id <;> simp [getDoc, List.find?, h]

theorem getDoc_updateDoc {α : Type} (col : List (String × α)) (id : String) (f : α → α) :
    getDoc (updateDoc col id f) id = (getDoc col id).map f := by
  induction col with
  | nil => rfl
  | cons p ps ih =>
    by_cases h : p.1 = id
    · simp [updateDoc, getDoc_cons, h]
    · simpa [updateDoc, getDoc_cons, h] using ih

theorem mem_insOrd {α : Type} (bef : α → α → Bool) (x a : α) (l : List α) :
    a ∈ insOrd bef x l ↔ a = x ∨ a ∈ l := by
  induction l with
  | nil => simp [insOrd]
  | cons y ys ih =>
    by_cases h : bef y x = true
    · rw [insOrd, if_pos h]
      simp only [List.mem_cons, ih]
      tauto
    · rw [insOrd, if_neg h]
      exact List.mem_cons

theorem mem_sortOrd {α : Type} (bef : α → α → Bool) (a : α) (l : List α) :
    a ∈ sortOrd bef l ↔ a ∈ l := by
  induction l with
  | nil => simp [sortOrd]
  | cons x xs ih => simp [sortOrd, mem_insOrd, ih]

theorem pairwise_insOrd {α : Type} (key : α → Nat) (x : α) (l : List α)
    (h : l.Pairwise (fun a b => key b ≤ key a)) :
    (insOrd (fun a b => decide (key b ≤ key a)) x l).Pairwise
      (fun a b => key b ≤ key a) := by
  induction l with
  | nil => simp [insOrd]
  | cons y ys ih =>
    rcases List.pairwise_cons.mp h with ⟨hy, hys⟩
    by_cases hc : key x ≤ key y
    · rw [insOrd, if_pos (by simpa using hc)]
      refine List.pairwise_cons.mpr ⟨?_, ih hys⟩
      intro z hz
      rcases (mem_insOrd _ x z ys).mp hz with rfl | hz2
      · exact hc
      · exact hy z hz2
    · have hxy : key y ≤ key x := le_of_not_le hc
      rw [insOrd, if_neg (by simpa using hc)]
      refine List.pairwise_cons.mpr ⟨?_, h⟩
      intro z hz
      rcases List.mem_cons.mp hz with rfl | hz2
      · exact hxy
      · exact le_trans (hy z hz2) hxy

theorem pairwise_sortOrd {α : Type} (key : α → Nat) (l : List α) :
    (sortOrd (fun a b => decide (key b ≤ key a)) l).Pairwise
      (fun a b => key b ≤ key a) := by
  induction l with
  | nil => simp [sortOrd]
  | cons x xs ih => exact pairwise_insOrd key x _ ih

theorem contains_iff_mem (l : List String) (s : String) :
    l.contains s = true ↔ s ∈ l :=
  List.elem_iff

theorem mem_aplicaWhere (q : List (String × Doacao)) (crit : Option String)
    (campo : Doacao → JValue) (p : String × Doacao) :
    p ∈ aplicaWhere q crit campo ↔
      (p ∈ q ∧ ∀ c, crit = some c → c ≠ "" → campo p.2 = JValue.str c) := by
  cases crit with
  | none => simp [aplicaWhere]
  | some c =>
    by_cases h : c = ""
    · subst h
      simp [aplicaWhere]
    · simp [aplicaWhere, h, List.mem_filter]

/-! ### Concrete states used by counterexamples and witnesses -/

/-- A requester profile. -/
def exUserBia : UserDoc :=
  { cargo := .str "receptor"
    nome := .str "Bia"
    telefone := .str "9"
    email := .str "bia@x"
    password_hash := .str "h" }

/-- A donation owned by user `alice`. -/
def exDoacaoAlice : Doacao :=
  { usuario_id := "alice"
    titulo := .str "Sofa"
    descricao := .str "usado"
    categoria := .str "moveis"
    localizacao := .str "centro"
    cidade := .str "Porto"
    estado := .str "PE"
    foto := .null
    createdAt := 1
    updatedAt := none }

/-- A pending request by `bia` on `alice`s donation. -/
def exSolicPend : Solicitacao :=
  { doacao_id := "d1"
    receptor_id := "bia"
    motivo := "preciso"
    status := "pendente"
    createdAt := 2 }

/-- State: one user, one donation of `alice`, one pending request. -/
def exDB1 : DB :=
  { users := [("bia", exUserBia)]
    doacoes := [("d1", exDoacaoAlice)]
    solicitacoes := [("r1", exSolicPend)] }

/-- A request already in the terminal state `aceita`. -/
def exSolicAceita : Solicitacao :=
  { doacao_id := "d1"
    receptor_id := "bia"
    motivo := "preciso"
    status := "aceita"
    createdAt := 2 }

/-- State whose only request is already accepted. -/
def exDB2 : DB :=
  { users := [("bia", exUserBia)]
    doacoes := [("d1", exDoacaoAlice)]
    solicitacoes := [("r1", exSolicAceita)] }

/-- A request whose requester user document does not exist. -/
def exSolicGhost : Solicitacao :=
  { doacao_id := "d1"
    receptor_id := "ghost"
    motivo := "preciso"
    status := "pendente"
    createdAt := 3 }

/-- State with a dangling requester reference. -/
def exDB10 : DB :=
  { users := []
    doacoes := [("d1", exDoacaoAlice)]
    solicitacoes := [("r1", exSolicGhost)] }

/-! ### C1 -/

/-- C1 (counterexample): the claim says a `decide` by a caller who does
not own the referenced donation fails with an authorization error and
leaves the status unchanged.  In the state `exDB1` the donation `d1` is
owned by `alice` and the request `r1` is pending; the caller `carol`
accepts it anyway: the route answers the requester contact and the
stored status becomes `aceita`. -/
theorem C1_counterexample :
    (getDoc exDB1.doacoes "d1").map Doacao.usuario_id = some "alice" ∧
    (getDoc exDB1.solicitacoes "r1").map Solicitacao.status = some "pendente" ∧
    (aceitarSolicitacao exDB1 "carol" "r1").2 ≠ Res.fail ApiError.authorization ∧
    (aceitarSolicitacao exDB1 "carol" "r1").2 =
      Res.ok { nome := JValue.str "Bia", telefone := JValue.str "9",
               email := JValue.str "bia@x" } ∧
    (getDoc (aceitarSolicitacao exDB1 "carol" "r1").1.solicitacoes "r1").map
      Solicitacao.status = some "aceita" := by
  decide

/-- C1 (amended): the accept and decline routes perform no ownership
comparison at all.  They never fail with an authorization error, and on
every existing request whose requester user document exists they
succeed for every caller identity, overwriting the status and answering
the requester contact. -/
theorem C1_decide_no_ownership_check (db : DB) (caller solicId : String) :
    (aceitarSolicitacao db caller solicId).2 ≠ Res.fail ApiError.authorization ∧
    (recusarSolicitacao db caller solicId).2 ≠ Res.fail ApiError.authorization ∧
    (∀ s u, getDoc db.solicitacoes solicId = some s →
      getDoc db.users s.receptor_id = some u →
      aceitarSolicitacao db caller solicId =
        (comStatus db solicId "aceita",
         Res.ok { nome := u.nome, telefone := u.telefone, email := u.email }) ∧
      recusarSolicitacao db caller solicId =
        (comStatus db solicId "recusada",
         Res.ok { nome := u.nome, telefone := u.telefone, email := u.email })) := by
  refine ⟨?_, ?_, ?_⟩
  · cases h1 : getDoc db.solicitacoes solicId with
    | none => simp [aceitarSolicitacao, decidirSolicitacao, h1]
    | some s =>
      cases h2 : getDoc db.users s.receptor_id <;>
        simp [aceitarSolicitacao, decidirSolicitacao, h1, h2]
  · cases h1 : getDoc db.solicitacoes solicId with
    | none => simp [recusarSolicitacao, decidirSolicitacao, h1]
    | some s =>
      cases h2 : getDoc db.users s.receptor_id <;>
        simp [recusarSolicitacao, decidirSolicitacao, h1, h2]
  · intro s u h1 h2
    constructor <;>
      simp [aceitarSolicitacao, recusarSolicitacao, decidirSolicitacao, h1, h2]

/-- C1 (witness): the amended theorem applied in `exDB1` to the caller
`carol`, who does not own the donation of request `r1`. -/
theorem C1_decide_no_ownership_check_witness :
    getDoc exDB1.solicitacoes "r1" = some exSolicPend ∧
    getDoc exDB1.users exSolicPend.receptor_id = some exUserBia ∧
    aceitarSolicitacao exDB1 "carol" "r1" =
      (comStatus exDB1 "r1" "aceita",
       Res.ok { nome := exUserBia.nome, telefone := exUserBia.telefone,
                email := exUserBia.email }) :=
  ⟨rfl, rfl,
    ((C1_decide_no_ownership_check exDB1 "carol" "r1").2.2 exSolicPend exUserBia
      rfl rfl).1⟩

/-! ### C2 -/

/-- C2 (counterexample): the claim says a request in a terminal state
is never moved to a different status by `decide`.  In `exDB2` the
request `r1` is already `aceita`; the decline route moves it to
`recusada`. -/
theorem C2_counterexample :
    (getDoc exDB2.solicitacoes "r1").map Solicitacao.status = some "aceita" ∧
    (getDoc (recusarSolicitacao exDB2 "alice" "r1").1.solicitacoes "r1").map
      Solicitacao.status = some "recusada" := by
  decide

/-- C2 (amended): the accept and decline routes overwrite the stored
status unconditionally whenever the request exists; in particular a
terminal status is replaced by the new outcome, so accepted and
declined states are not terminal in the code. -/
theorem C2_status_overwrite (db : DB) (caller solicId : String) (s : Solicitacao)
    (h : getDoc db.solicitacoes solicId = some s) :
    getDoc (aceitarSolicitacao db caller solicId).1.solicitacoes solicId =
      some { s with status := "aceita" } ∧
    getDoc (recusarSolicitacao db caller solicId).1.solicitacoes solicId =
      some { s with status := "recusada" } := by
  constructor <;>
  · simp only [aceitarSolicitacao, recusarSolicitacao, decidirSolicitacao, h]
    cases h2 : getDoc db.users s.receptor_id <;>
      simp [h2, comStatus, getDoc_updateDoc, h]

/-- C2 (witness): the amended theorem applied in `exDB2`, whose request
is already in the terminal state `aceita`. -/
theorem C2_status_overwrite_witness :
    getDoc exDB2.solicitacoes "r1" = some exSolicAceita ∧
    (getDoc (aceitarSolicitacao exDB2 "x" "r1").1.solicitacoes "r1" =
        some { exSolicAceita with status := "aceita" } ∧
      getDoc (recusarSolicitacao exDB2 "x" "r1").1.solicitacoes "r1" =
        some { exSolicAceita with status := "recusada" }) :=
  ⟨rfl, C2_status_overwrite exDB2 "x" "r1" exSolicAceita rfl⟩

/-! ### C10 -/

/-- C10: the status write happens before the requester user document is
read, so when that document is missing the route reports a failure to
the caller although the stored status has already been overwritten with
the outcome; the mutation is not rolled back. -/
theorem C10_decide_mutation_not_rolled_back (db : DB) (caller solicId : String)
    (s : Solicitacao) (h1 : getDoc db.solicitacoes solicId = some s)
    (h2 : getDoc db.users s.receptor_id = none) :
    ((aceitarSolicitacao db caller solicId).2 = Res.fail ApiError.internal ∧
      getDoc (aceitarSolicitacao db caller solicId).1.solicitacoes solicId =
        some { s with status := "aceita" }) ∧
    ((recusarSolicitacao db caller solicId).2 = Res.fail ApiError.internal ∧
      getDoc (recusarSolicitacao db caller solicId).1.solicitacoes solicId =
        some { s with status := "recusada" }) := by
  refine ⟨⟨?_, ?_⟩, ⟨?_, ?_⟩⟩ <;>
    simp [aceitarSolicitacao, recusarSolicitacao, decidirSolicitacao, h1, h2,
      comStatus, getDoc_updateDoc]

/-- C10 (witness): the theorem applied in `exDB10`, whose request
references the missing user `ghost`. -/
theorem C10_decide_mutation_not_rolled_back_witness :
    getDoc exDB10.solicitacoes "r1" = some exSolicGhost ∧
    getDoc exDB10.users exSolicGhost.receptor_id = none ∧
    ((aceitarSolicitacao exDB10 "alice" "r1").2 = Res.fail ApiError.internal ∧
      getDoc (aceitarSolicitacao exDB10 "alice" "r1").1.solicitacoes "r1" =
        some { exSolicGhost with status := "aceita" }) :=
  ⟨rfl, rfl,
    (C10_decide_mutation_not_rolled_back exDB10 "alice" "r1" exSolicGhost
      rfl rfl).1⟩

/-! ### C3 and C9: profile update -/

/-- A donor profile stored under id `u1`. -/
def exUserDoador : UserDoc :=
  { cargo := .str "doador"
    nome := .str "Dan"
    telefone := .str "8"
    email := .str "dan@x"
    password_hash := .str "h" }

/-- State with the single user `u1`. -/
def exDB3 : DB :=
  { users := [("u1", exUserDoador)]
    doacoes := []
    solicitacoes := [] }

/-- An identity stand-in for the external password hash. -/
def idHash : String → String := fun s => s

/-- An update set carrying the falsy role value `""`. -/
def dadosCargoVazio : DadosPerfil :=
  { senha := none, cargo := .str "", nome := .undef, telefone := .undef,
    email := .undef }

/-- An update set carrying the truthy role value `admin`. -/
def dadosCargoAdmin : DadosPerfil :=
  { senha := none, cargo := .str "admin", nome := .undef, telefone := .undef,
    email := .undef }

/-- An update set renaming the user. -/
def dadosNovoNome : DadosPerfil :=
  { senha := none, cargo := .undef, nome := .str "Eve", telefone := .undef,
    email := .undef }

/-- C3 (counterexample): the claim says the stored role is unchanged
regardless of the incoming role value.  The handler drops the incoming
`cargo` only when it is truthy; the falsy value `""` survives the guard
and is persisted, overwriting the stored role `doador`. -/
theorem C3_counterexample :
    (getDoc exDB3.users "u1").map UserDoc.cargo = some (JValue.str "doador") ∧
    (getDoc (atualizarPerfil exDB3 "u1" "u1" dadosCargoVazio idHash).1.users
      "u1").map UserDoc.cargo = some (JValue.str "") := by
  decide

/-- C3 (amended): for every existing user the stored role is unchanged
whenever the incoming role value is absent or truthy; only a present
falsy role value overwrites it. -/
theorem C3_cargo_immutable_unless_falsy (db : DB) (caller uid : String)
    (dados : DadosPerfil) (hash : String → String) (u : UserDoc)
    (hu : getDoc db.users uid = some u)
    (hcargo : dados.cargo = JValue.undef ∨ dados.cargo.truthy = true) :
    (getDoc (atualizarPerfil db caller uid dados hash).1.users uid).map
      UserDoc.cargo = some u.cargo := by
  rcases hcargo with h | h <;>
    simp [atualizarPerfil, hu, getDoc_updateDoc, mergeField, h]

/-- C3 (witness): the amended theorem applied in `exDB3` to the truthy
incoming role `admin`, which is dropped. -/
theorem C3_cargo_immutable_unless_falsy_witness :
    getDoc exDB3.users "u1" = some exUserDoador ∧
    (dadosCargoAdmin.cargo = JValue.undef ∨ dadosCargoAdmin.cargo.truthy = true) ∧
    (getDoc (atualizarPerfil exDB3 "mallory" "u1" dadosCargoAdmin idHash).1.users
      "u1").map UserDoc.cargo = some exUserDoador.cargo :=
  ⟨rfl, Or.inr (by decide),
    C3_cargo_immutable_unless_falsy exDB3 "mallory" "u1" dadosCargoAdmin idHash
      exUserDoador rfl (Or.inr (by decide))⟩

/-- C9: the profile update route never fails with an authorization
error, its outcome is independent of the caller identity, and on every
existing target user it succeeds and applies the update set (here
observed on the stored name), so any authenticated caller can modify
any user. -/
theorem C9_profile_update_no_authorization (db : DB) (caller uid : String)
    (dados : DadosPerfil) (hash : String → String) :
    (atualizarPerfil db caller uid dados hash).2 ≠ Res.fail ApiError.authorization ∧
    (∀ caller2, atualizarPerfil db caller uid dados hash =
      atualizarPerfil db caller2 uid dados hash) ∧
    (∀ u, getDoc db.users uid = some u →
      (atualizarPerfil db caller uid dados hash).2 = Res.ok () ∧
      (getDoc (atualizarPerfil db caller uid dados hash).1.users uid).map
        UserDoc.nome = some (mergeField u.nome dados.nome)) := by
  refine ⟨?_, fun caller2 => rfl, ?_⟩
  · cases hu : getDoc db.users uid <;> simp [atualizarPerfil, hu]
  · intro u hu
    refine ⟨?_, ?_⟩
    · simp [atualizarPerfil, hu]
    · simp [atualizarPerfil, hu, getDoc_updateDoc]

/-- C9 (witness): the theorem applied in `exDB3` with the unrelated
caller `mallory` renaming user `u1`. -/
theorem C9_profile_update_no_authorization_witness :
    getDoc exDB3.users "u1" = some exUserDoador ∧
    ((atualizarPerfil exDB3 "mallory" "u1" dadosNovoNome idHash).2 = Res.ok () ∧
      (getDoc (atualizarPerfil exDB3 "mallory" "u1" dadosNovoNome idHash).1.users
        "u1").map UserDoc.nome = some (mergeField exUserDoador.nome dadosNovoNome.nome)) :=
  ⟨rfl,
    (C9_profile_update_no_authorization exDB3 "mallory" "u1" dadosNovoNome
      idHash).2.2 exUserDoador rfl⟩

/-! ### C4: donation update -/

/-- An upload stand-in for requests that attach no file. -/
def noUpload : Nat → Option String := fun _ => none

/-- State with the single donation `d1` of `alice` (city `Porto`). -/
def exDB4 : DB :=
  { users := []
    doacoes := [("d1", exDoacaoAlice)]
    solicitacoes := [] }

/-- State `exDB4` after `alice` updates `d1` supplying the empty city. -/
def exDB4a : DB :=
  (atualizarDoacao exDB4 "alice" "d1" .undef .undef .undef .undef
    (.str "") .undef none noUpload 5).1

/-- State `exDB4a` after `alice` updates `d1` omitting the city. -/
def exDB4b : DB :=
  (atualizarDoacao exDB4a "alice" "d1" .undef .undef .undef .undef
    .undef .undef none noUpload 6).1

/-- C4 (counterexample): the claim says an absent incoming city always
preserves the previously stored city.  After an update stores the empty
city on `d1`, a further update that omits the city stores `null`, not
the previous value: `doacao.cidade || null` normalizes a falsy stored
value. -/
theorem C4_counterexample :
    (getDoc exDB4a.doacoes "d1").map Doacao.cidade = some (JValue.str "") ∧
    (getDoc exDB4b.doacoes "d1").map Doacao.cidade = some JValue.null := by
  decide

/-- C4 (amended): for every donation owned by the caller, an update
without a new photo keeps these field semantics: an absent or null
incoming city/state preserves the stored value when that stored value
is truthy and stores `null` when it is falsy; a defined non-null
incoming city/state overwrites; title, description, category and
location are overwritten exactly when the incoming value is defined. -/
theorem C4_update_field_semantics (db : DB) (caller doacaoId : String)
    (titulo descricao categoria localizacao cidade estado : JValue)
    (uploadFn : Nat → Option String) (now : Nat) (d : Doacao)
    (hd : getDoc db.doacoes doacaoId = some d)
    (hown : d.usuario_id = caller) :
    ∃ d2, getDoc (atualizarDoacao db caller doacaoId titulo descricao categoria
        localizacao cidade estado none uploadFn now).1.doacoes doacaoId = some d2 ∧
      ((cidade = JValue.undef ∨ cidade = JValue.null) → d.cidade.truthy = true →
        d2.cidade = d.cidade) ∧
      ((cidade = JValue.undef ∨ cidade = JValue.null) → d.cidade.truthy = false →
        d2.cidade = JValue.null) ∧
      (cidade ≠ JValue.undef → cidade ≠ JValue.null → d2.cidade = cidade) ∧
      ((estado = JValue.undef ∨ estado = JValue.null) → d.estado.truthy = true →
        d2.estado = d.estado) ∧
      ((estado = JValue.undef ∨ estado = JValue.null) → d.estado.truthy = false →
        d2.estado = JValue.null) ∧
      (estado ≠ JValue.undef → estado ≠ JValue.null → d2.estado = estado) ∧
      (titulo = JValue.undef → d2.titulo = d.titulo) ∧
      (titulo ≠ JValue.undef → d2.titulo = titulo) ∧
      (descricao = JValue.undef → d2.descricao = d.descricao) ∧
      (descricao ≠ JValue.undef → d2.descricao = descricao) ∧
      (categoria = JValue.undef → d2.categoria = d.categoria) ∧
      (categoria ≠ JValue.undef → d2.categoria = categoria) ∧
      (localizacao = JValue.undef → d2.localizacao = d.localizacao) ∧
      (localizacao ≠ JValue.undef → d2.localizacao = localizacao) := by
  subst hown
  simp only [atualizarDoacao, hd, bne_self_eq_false, Bool.false_eq_true,
    if_false, Option.map_some, getDoc_updateDoc]
  refine ⟨_, rfl, ?_, ?_, ?_, ?_, ?_, ?_, ?_, ?_, ?_, ?_, ?_, ?_, ?_, ?_⟩ <;>
    first
      | (rintro (rfl | rfl) ht <;> simp [novoCampoCidade, ht])
      | (intro h1 h2
         simp [novoCampoCidade, h1, h2])
      | (rintro rfl
         simp [mergeField])
      | (intro h
         simp [mergeField, h])

/-- C4 (witness): in `exDB4` the owner updates `d1` omitting the city;
the stored city `Porto` is truthy, so it is preserved. -/
theorem C4_update_field_semantics_witness :
    getDoc exDB4.doacoes "d1" = some exDoacaoAlice ∧
    exDoacaoAlice.usuario_id = "alice" ∧
    (getDoc (atualizarDoacao exDB4 "alice" "d1" JValue.undef JValue.undef
      JValue.undef JValue.undef JValue.undef JValue.undef none noUpload
      7).1.doacoes "d1").map Doacao.cidade = some exDoacaoAlice.cidade := by
  refine ⟨rfl, rfl, ?_⟩
  obtain ⟨d2, hget, hpres, -⟩ :=
    C4_update_field_semantics exDB4 "alice" "d1" JValue.undef JValue.undef
      JValue.undef JValue.undef JValue.undef JValue.undef noUpload 7
      exDoacaoAlice rfl rfl
  simp [hget, hpres (Or.inl rfl) (by decide)]

/-! ### C5: donation create with photo -/

/-- An upload stand-in that always gets rejected. -/
def upFail : Nat → Option String := fun _ => none

/-- An empty state. -/
def exDB5 : DB :=
  { users := []
    doacoes := []
    solicitacoes := [] }

/-- C5: on a create call that attaches a photo and passes validation,
the upload event precedes any document write; when the upload is
rejected the route fails as a storage error, emits no write event and
leaves the donation collection unchanged; when it succeeds exactly one
donation document is appended, carrying the answered URL. -/
theorem C5_create_upload_all_or_nothing (db : DB) (userId : String)
    (titulo descricao categoria localizacao cidade estado : Option String)
    (buf : Nat) (uploadFn : Nat → Option String) (newId : String) (now : Nat)
    (hv : (truthyS titulo && truthyS descricao && truthyS categoria &&
      truthyS localizacao && truthyS cidade && truthyS estado) = true) :
    (uploadFn buf = none →
      postDoacao db userId titulo descricao categoria localizacao cidade estado
        (some buf) uploadFn newId now = (db, Res.fail ApiError.storage, [Ev.upload])) ∧
    (∀ url, uploadFn buf = some url →
      ∃ rec, postDoacao db userId titulo descricao categoria localizacao cidade
          estado (some buf) uploadFn newId now =
        ({ db with doacoes := db.doacoes ++ [(newId, rec)] }, Res.ok (),
         [Ev.upload, Ev.write]) ∧ rec.foto = JValue.str url) := by
  constructor
  · intro hup
    simp [postDoacao, hv, hup]
  · intro url hup
    refine ⟨{ usuario_id := userId, titulo := .str (titulo.getD ""),
              descricao := .str (descricao.getD ""),
              categoria := .str (categoria.getD ""),
              localizacao := .str (localizacao.getD ""),
              cidade := .str (cidade.getD ""), estado := .str (estado.getD ""),
              foto := .str url, createdAt := now, updatedAt := none }, ?_, rfl⟩
    simp [postDoacao, hv, hup]

/-- C5 (witness): the theorem applied in the empty state with a
rejected upload: the route fails as a storage error, logs only the
upload event and the state is untouched. -/
theorem C5_create_upload_all_or_nothing_witness :
    (truthyS (some "t") && truthyS (some "d") && truthyS (some "c") &&
      truthyS (some "l") && truthyS (some "ci") && truthyS (some "es")) = true ∧
    postDoacao exDB5 "alice" (some "t") (some "d") (some "c") (some "l")
      (some "ci") (some "es") (some 0) upFail "n1" 9 =
      (exDB5, Res.fail ApiError.storage, [Ev.upload]) := by
  refine ⟨by decide, ?_⟩
  exact (C5_create_upload_all_or_nothing exDB5 "alice" (some "t") (some "d")
    (some "c") (some "l") (some "ci") (some "es") 0 upFail "n1" 9
    (by decide)).1 rfl

/-! ### C6: request submission -/

/-- The request document written by `POST /solicitacoes`. -/
def novaSolicitacao (s userId : String) (motivo : Option String) (now : Nat) :
    Solicitacao :=
  { doacao_id := s
    receptor_id := userId
    motivo := motivo.getD ""
    status := "pendente"
    createdAt := now }

/-- State with the single donation `d1`. -/
def exDB6 : DB :=
  { users := []
    doacoes := [("d1", exDoacaoAlice)]
    solicitacoes := [] }

/-- C6: submit fails as a validation error when the donation id or the
reason is falsy, fails as not-found when the referenced donation is
absent at submission time, and otherwise appends exactly one request
document with status `pendente` and the current time. -/
theorem C6_submit_spec (db : DB) (userId : String)
    (doacao_id motivo : Option String) (newId : String) (now : Nat) :
    ((truthyS doacao_id && truthyS motivo) = false →
      postSolicitacao db userId doacao_id motivo newId now =
        (db, Res.fail ApiError.validation)) ∧
    (∀ s, doacao_id = some s → (truthyS doacao_id && truthyS motivo) = true →
      getDoc db.doacoes s = none →
      postSolicitacao db userId doacao_id motivo newId now =
        (db, Res.fail ApiError.notFound)) ∧
    (∀ s dd, doacao_id = some s → (truthyS doacao_id && truthyS motivo) = true →
      getDoc db.doacoes s = some dd →
      postSolicitacao db userId doacao_id motivo newId now =
        ({ db with solicitacoes := db.solicitacoes ++ [(newId, novaSolicitacao s userId motivo now)] },
         Res.ok ()) ∧
      (novaSolicitacao s userId motivo now).status = "pendente" ∧
      (novaSolicitacao s userId motivo now).createdAt = now ∧
      (db.solicitacoes ++ [(newId, novaSolicitacao s userId motivo now)]).length =
        db.solicitacoes.length + 1) := by
  refine ⟨?_, ?_, ?_⟩
  · intro hv
    simp [postSolicitacao, hv]
  · intro s hs hv hn
    subst hs
    simp [postSolicitacao, hv, hn]
  · intro s dd hs hv hsome
    subst hs
    refine ⟨?_, rfl, rfl, by simp⟩
    simp [postSolicitacao, novaSolicitacao, hv, hsome]

/-- C6 (witness): the theorem applied in `exDB6`: submitting against
the existing donation `d1` appends one pending request. -/
theorem C6_submit_spec_witness :
    (truthyS (some "d1") && truthyS (some "preciso")) = true ∧
    getDoc exDB6.doacoes "d1" = some exDoacaoAlice ∧
    postSolicitacao exDB6 "bia" (some "d1") (some "preciso") "r9" 4 =
      ({ exDB6 with solicitacoes := exDB6.solicitacoes ++ [("r9", novaSolicitacao "d1" "bia" (some "preciso") 4)] },
       Res.ok ()) := by
  refine ⟨by decide, rfl, ?_⟩
  exact ((C6_submit_spec exDB6 "bia" (some "d1") (some "preciso") "r9" 4).2.2
    "d1" exDoacaoAlice rfl (by decide) rfl).1

/-! ### C7: donation filtering -/

/-- C7 (counterexample): the claim says `filter` with a present city
criterion `c` includes a donation iff its city equals `c` (and the
owner differs from the excluded user).  With the present but empty city
criterion `""`, the route attaches no city clause at all, so the
donation `d1` with city `Porto` is included although its city is not
`""`. -/
theorem C7_counterexample :
    ("d1", exDoacaoAlice) ∈ filtrarDoacoes exDB4 "bob" none (some "") none none ∧
    exDoacaoAlice.cidade ≠ JValue.str "" ∧
    exDoacaoAlice.usuario_id ≠ "bob" := by
  decide

/-- C7 (amended): a stored donation is included in the filtered listing
iff its owner differs from the excluded user and it matches every
criterion that is present AND non-empty; a criterion supplied as the
empty string imposes no constraint. -/
theorem C7_filter_membership (db : DB) (userId : String)
    (categoria cidade estado ordenar : Option String) (id : String) (d : Doacao) :
    (id, d) ∈ filtrarDoacoes db userId categoria cidade estado ordenar ↔
      ((id, d) ∈ db.doacoes ∧ d.usuario_id ≠ userId ∧
        (∀ c, categoria = some c → c ≠ "" → d.categoria = JValue.str c) ∧
        (∀ c, cidade = some c → c ≠ "" → d.cidade = JValue.str c) ∧
        (∀ c, estado = some c → c ≠ "" → d.estado = JValue.str c)) := by
  have core : (id, d) ∈ (aplicaWhere (aplicaWhere (aplicaWhere db.doacoes
      categoria Doacao.categoria) cidade Doacao.cidade) estado
      Doacao.estado).filter (fun p => p.2.usuario_id != userId) ↔
      ((id, d) ∈ db.doacoes ∧ d.usuario_id ≠ userId ∧
        (∀ c, categoria = some c → c ≠ "" → d.categoria = JValue.str c) ∧
        (∀ c, cidade = some c → c ≠ "" → d.cidade = JValue.str c) ∧
        (∀ c, estado = some c → c ≠ "" → d.estado = JValue.str c)) := by
    rw [List.mem_filter, mem_aplicaWhere, mem_aplicaWhere, mem_aplicaWhere]
    simp only [bne_iff_ne, ne_eq]
    tauto
  simp only [filtrarDoacoes]
  split
  · rw [mem_sortOrd]
    exact core
  · split
    · rw [mem_sortOrd]
      exact core
    · exact core

/-! ### C8: requests received by the donor -/

/-- C8: the received-requests listing first resolves the donor-owned
donation ids and, when there are none, answers the empty sequence
without ever reading the requests collection; in general it is ordered
newest first and holds exactly the enrichments of the stored requests
whose donation id is among the donor-owned ids. -/
theorem C8_received_requests (db : DB) (doadorId : String) :
    (ownedIds db doadorId = [] →
      (solicitacoesRecebidas db doadorId).1 = [] ∧
      "solicitacoes" ∉ (solicitacoesRecebidas db doadorId).2) ∧
    ((solicitacoesRecebidas db doadorId).1.Pairwise
      (fun a b => b.data.createdAt ≤ a.data.createdAt)) ∧
    (∀ e, e ∈ (solicitacoesRecebidas db doadorId).1 ↔
      ∃ pid s, (pid, s) ∈ db.solicitacoes ∧
        s.doacao_id ∈ ownedIds db doadorId ∧ e = enriquece db (pid, s)) := by
  by_cases hids : (ownedIds db doadorId).isEmpty = true
  · have hnil : ownedIds db doadorId = [] := by
      simpa using hids
    refine ⟨fun _ => ?_, ?_, ?_⟩
    · simp [solicitacoesRecebidas, hids]
    · simp [solicitacoesRecebidas, hids]
    · intro e
      simp [solicitacoesRecebidas, hids, hnil]
  · refine ⟨fun h => absurd (by simp [h]) hids, ?_, ?_⟩
    · simp only [solicitacoesRecebidas, if_neg hids]
      rw [List.pairwise_map]
      exact pairwise_sortOrd (fun p : String × Solicitacao => p.2.createdAt) _
    · intro e
      simp only [solicitacoesRecebidas, if_neg hids]
      rw [List.mem_map]
      constructor
      · rintro ⟨p, hp, rfl⟩
        rw [mem_sortOrd, List.mem_filter] at hp
        exact ⟨p.1, p.2, hp.1, (contains_iff_mem _ _).mp hp.2, rfl⟩
      · rintro ⟨pid, s, hmem, hin, rfl⟩
        refine ⟨(pid, s), ?_, rfl⟩
        rw [mem_sortOrd, List.mem_filter]
        exact ⟨hmem, (contains_iff_mem _ _).mpr hin⟩

/-- C8 (witness): the theorem applied in `exDB1` to the donor `zoe`,
who owns no donation although a request exists in the store: the
answer is empty and the requests collection is never read. -/
theorem C8_received_requests_witness :
    ownedIds exDB1 "zoe" = [] ∧
    ((solicitacoesRecebidas exDB1 "zoe").1 = [] ∧
      "solicitacoes" ∉ (solicitacoesRecebidas exDB1 "zoe").2) :=
  ⟨rfl, (C8_received_requests exDB1 "zoe").1 rfl⟩

end ProjetoFan
